import Mathlib

/-!
Shallow embedding of the GraphQL example server in `src/index.ts`.

The program declares a schema and a resolver table over four hardcoded
in-memory collections (`books`, `authors`, `libraries`, `booksNew`).
Resolvers are embedded as Lean functions; since the claims speak about
whether resolvers mutate the shared module-level collections, every
resolver is given in explicit state-passing style over a `ServerState`
record holding the four collections: it returns its result together
with the state after the call.  None of the resolver bodies in the
source assigns to a module-level variable, so each embedded resolver
returns its input state unchanged.

The execution engine invokes every resolver positionally as
`(parent, args, context, info)` -- the convention `Query.author`
(line 69) relies on.  `Mutation.addBook` (line 104) names its first two
positional parameters `title` and `author`, but parameter names do not
change the call: its first parameter is bound to the parent value
(`undefined` at the mutation root, since no rootValue is configured at
lines 114-125) and its second to the whole args object.  The embedding
reproduces this binding, so the entry `addBook` appends is
`{title: parent, author: argsObject}`; book fields therefore range over
a small universe of JavaScript values (`FieldVal`).
-/

/-- An entry of an author's `books` list: `{ title: ... }`. -/
structure AuthorBooksEntry where
  title : String
deriving DecidableEq, Repr

/-- A JavaScript value occurring in a field of a books-collection entry:
seeded titles are strings (`str`), seeded authors are nested
`{ name: ... }` objects (`nameObj`); the entry appended by
`Mutation.addBook` holds the parent value -- `undefined` at the mutation
root (`undefinedVal`) -- in `title` and the whole args object
`{title, author}` (`argsObj`) in `author`. -/
inductive FieldVal where
  | str (s : String)
  | nameObj (name : String)
  | argsObj (title author : String)
  | undefinedVal
deriving DecidableEq, Repr

/-- A record of the `books` collection. -/
structure Book where
  title : FieldVal
  author : FieldVal
deriving DecidableEq, Repr

/-- A record of the `authors` collection. -/
structure Author where
  id : String
  name : String
  books : List AuthorBooksEntry
deriving DecidableEq, Repr

/-- A record of the `libraries` collection. -/
structure Library where
  branch : String
deriving DecidableEq, Repr

/-- A record of the `booksNew` collection: flat, with the author as a raw
string and a `branch` used for filtering. -/
structure BookNew where
  title : String
  author : String
  branch : String
deriving DecidableEq, Repr

/-- The object synthesized by the `BookNew.author` resolver: `{ name: ... }`. -/
structure AuthorNew where
  name : String
deriving DecidableEq, Repr

/-- The seeded `books` collection (lines 129-140 of `src/index.ts`). -/
def books : List Book :=
  [⟨.str "The Awakening", .nameObj "Kate Chopin"⟩,
   ⟨.str "City of Glass", .nameObj "Paul Auster"⟩]

/-- The seeded `authors` collection (lines 142-153). -/
def authors : List Author :=
  [⟨"1", "Kate Chopin", [⟨"The Awakening"⟩]⟩,
   ⟨"2", "Paul Auster", [⟨"City of Glass"⟩]⟩]

/-- The seeded `libraries` collection (lines 155-162). -/
def libraries : List Library :=
  [⟨"downtown"⟩, ⟨"riverside"⟩]

/-- The seeded `booksNew` collection (lines 165-176). -/
def booksNew : List BookNew :=
  [⟨"The Awakening", "Kate Chopin", "riverside"⟩,
   ⟨"City of Glass", "Paul Auster", "downtown"⟩]

/-- The module-level mutable state of the server process: the four
collections. -/
structure ServerState where
  books : List Book
  authors : List Author
  libraries : List Library
  booksNew : List BookNew
deriving DecidableEq, Repr

/-- The state right after startup: the four seeded collections. -/
def initState : ServerState :=
  ⟨books, authors, libraries, booksNew⟩

/-- `Query.books`: `() => books` (line 67). -/
def queryBooks (s : ServerState) : List Book × ServerState :=
  (s.books, s)

/-- `Query.authors`: `() => authors` (line 68). -/
def queryAuthors (s : ServerState) : List Author × ServerState :=
  (s.authors, s)

/-- `Query.author`: `authors.find((item) => item.id === args.id)`
(lines 69-71). -/
def queryAuthor (s : ServerState) (id : String) : Option Author × ServerState :=
  (s.authors.find? (fun item => item.id == id), s)

/-- `Query.numberSix`: `return 6` (lines 72-74). -/
def numberSix (s : ServerState) : Int × ServerState :=
  (6, s)

/-- `Query.numberSeven`: `return 7` (lines 75-77). -/
def numberSeven (s : ServerState) : Int × ServerState :=
  (7, s)

/-- `Query.libraries`: `return libraries` (lines 78-81). -/
def queryLibraries (s : ServerState) : List Library × ServerState :=
  (s.libraries, s)

/-- `Library.booksNew`:
`booksNew.filter((book) => book.branch === parent.branch)` (lines 83-88). -/
def libraryBooksNew (s : ServerState) (parent : Library) :
    List BookNew × ServerState :=
  (s.booksNew.filter (fun book => book.branch == parent.branch), s)

/-- `BookNew.author`: `return { name: parent.author }` (lines 94-98). -/
def bookNewAuthor (s : ServerState) (parent : BookNew) :
    AuthorNew × ServerState :=
  (⟨parent.author⟩, s)

/-- The arguments object the execution engine builds for a
`addBook(title: ..., author: ...)` mutation and passes, whole, as the
resolver's second positional parameter. -/
structure AddBookArgs where
  title : String
  author : String
deriving DecidableEq, Repr

/-- `Mutation.addBook`: `return [...books, { title, author }]` (lines 103-107).
The source names its two positional parameters `title` and `author`, but the
engine binds the first to the parent value and the second to the args object,
so the appended entry is `{title: parent, author: argsObject}`; at the
mutation root the parent is `undefined`. -/
def addBook (s : ServerState) (parent : FieldVal) (args : AddBookArgs) :
    List Book × ServerState :=
  (s.books ++ [⟨parent, .argsObj args.title args.author⟩], s)

/-- A fully resolved `BookNew` object as a client observes it: the `title`
field read off the parent by the default resolver, and the `author` field
produced by the `BookNew.author` resolver. -/
structure ResolvedBookNew where
  title : String
  author : AuthorNew
deriving DecidableEq, Repr

/-- Resolving an entry returned by `Library.booksNew`: keep `title`, run the
`BookNew.author` resolver for `author`. -/
def resolveBookNew (s : ServerState) (b : BookNew) : ResolvedBookNew :=
  ⟨b.title, (bookNewAuthor s b).1⟩

/-- Claim C1 fails on the code: the engine invokes `Mutation.addBook` as
`(parent, args)`, so at `addBook(title: "New Title", author: "New Author")`
-- parent `undefined` at the mutation root -- the appended entry is
`{title: undefined, author: {title: "New Title", author: "New Author"}}`,
not the claimed `{title: "New Title", author: "New Author"}`. -/
theorem addBook_misbinds_arguments :
    (addBook initState .undefinedVal ⟨"New Title", "New Author"⟩).1 =
      [⟨.str "The Awakening", .nameObj "Kate Chopin"⟩,
       ⟨.str "City of Glass", .nameObj "Paul Auster"⟩,
       ⟨.undefinedVal, .argsObj "New Title" "New Author"⟩] ∧
    (addBook initState .undefinedVal ⟨"New Title", "New Author"⟩).1 ≠
      books ++ [⟨.str "New Title", .str "New Author"⟩] := by
  exact ⟨rfl, by decide⟩

/-- Claim C2: `Mutation.addBook` leaves the module-level collections
unchanged, and a subsequent `Query.books` still returns exactly the two
seeded entries: the mutation is visible only in its own return value. -/
theorem addBook_does_not_persist (p : FieldVal) (args : AddBookArgs) :
    (addBook initState p args).2 = initState ∧
    (queryBooks (addBook initState p args).2).1 =
      [⟨.str "The Awakening", .nameObj "Kate Chopin"⟩,
       ⟨.str "City of Glass", .nameObj "Paul Auster"⟩] := by
  exact ⟨rfl, rfl⟩

/-- Claim C3: `Query.author` over the seeded authors returns, when some
entry carries the requested id, the unique entry with that id, and returns
`none` (null) rather than failing when no entry does. -/
theorem queryAuthor_lookup (id : String) :
    ((∃ a ∈ initState.authors, a.id = id) →
      ∃ a, (queryAuthor initState id).1 = some a ∧
        a ∈ initState.authors ∧ a.id = id ∧
        ∀ b ∈ initState.authors, b.id = id → b = a) ∧
    ((¬ ∃ a ∈ initState.authors, a.id = id) →
      (queryAuthor initState id).1 = none) := by
  by_cases h1 : id = "1"
  · subst h1
    refine ⟨fun _ => ⟨⟨"1", "Kate Chopin", [⟨"The Awakening"⟩]⟩, ?_, ?_, ?_, ?_⟩,
      fun h => absurd ⟨⟨"1", "Kate Chopin", [⟨"The Awakening"⟩]⟩, by decide⟩ h⟩
    · decide
    · decide
    · decide
    · decide
  · by_cases h2 : id = "2"
    · subst h2
      refine ⟨fun _ => ⟨⟨"2", "Paul Auster", [⟨"City of Glass"⟩]⟩, ?_, ?_, ?_, ?_⟩,
        fun h => absurd ⟨⟨"2", "Paul Auster", [⟨"City of Glass"⟩]⟩, by decide⟩ h⟩
      · decide
      · decide
      · decide
      · decide
    · constructor
      · rintro ⟨a, ha, hid⟩
        have : a = (⟨"1", "Kate Chopin", [⟨"The Awakening"⟩]⟩ : Author) ∨
            a = (⟨"2", "Paul Auster", [⟨"City of Glass"⟩]⟩ : Author) := by
          simpa [initState, authors] using ha
        rcases this with h | h <;> subst h <;> simp_all
      · intro _
        have hb1 : (("1" : String) == id) = false := by
          simp [h1]
          exact fun h => h1 h.symm
        have hb2 : (("2" : String) == id) = false := by
          simp [h2]
          exact fun h => h2 h.symm
        simp [queryAuthor, initState, authors, List.find?, hb1, hb2]

/-- Witness for `queryAuthor_lookup` at the present id `"1"` and the absent
id `"3"`. -/
theorem queryAuthor_lookup_witness :
    (queryAuthor initState "3").1 = none :=
  (queryAuthor_lookup "3").2 (by decide)

/-- Claim C4: for every `Library` parent, `Library.booksNew` returns exactly
the entries of `booksNew` whose branch equals the parent's branch, as a
sublist of the original collection (hence in original order); when no entry
matches it returns the empty list, a value, never an absent result. -/
theorem libraryBooksNew_filter (parent : Library) :
    (∀ b, b ∈ (libraryBooksNew initState parent).1 ↔
        b ∈ initState.booksNew ∧ b.branch = parent.branch) ∧
    (libraryBooksNew initState parent).1.Sublist initState.booksNew ∧
    ((∀ b ∈ initState.booksNew, b.branch ≠ parent.branch) →
      (libraryBooksNew initState parent).1 = []) := by
  refine ⟨fun b => ?_, ?_, fun h => ?_⟩
  · simp [libraryBooksNew, List.mem_filter]
  · exact List.filter_sublist _
  · simp only [libraryBooksNew]
    rw [List.filter_eq_nil_iff]
    intro b hb
    simpa using h b hb

/-- Witness for `libraryBooksNew_filter` at the seeded branch `"downtown"`:
the matching seeded entry is in the filtered result. -/
theorem libraryBooksNew_filter_witness :
    (⟨"City of Glass", "Paul Auster", "downtown"⟩ : BookNew) ∈
      (libraryBooksNew initState ⟨"downtown"⟩).1 :=
  ((libraryBooksNew_filter ⟨"downtown"⟩).1 _).mpr (by decide)

/-- Claim C5: over the seeded data, resolving `booksNew` for the library with
branch `"downtown"` and then each entry's author yields exactly
`[{title: "City of Glass", author: {name: "Paul Auster"}}]`, and for
`"riverside"` exactly `[{title: "The Awakening", author: {name: "Kate Chopin"}}]`. -/
theorem booksNew_resolved_at_seed_libraries :
    (libraryBooksNew initState ⟨"downtown"⟩).1.map (resolveBookNew initState) =
      [⟨"City of Glass", ⟨"Paul Auster"⟩⟩] ∧
    (libraryBooksNew initState ⟨"riverside"⟩).1.map (resolveBookNew initState) =
      [⟨"The Awakening", ⟨"Kate Chopin"⟩⟩] := by
  exact ⟨rfl, rfl⟩

/-- Claim C6: `Query.books` returns exactly the two seeded entries, in seed
order, each with its nested author object. -/
theorem queryBooks_seeded :
    (queryBooks initState).1 =
      [⟨.str "The Awakening", .nameObj "Kate Chopin"⟩,
       ⟨.str "City of Glass", .nameObj "Paul Auster"⟩] := rfl

/-- Claim C7: `Query.libraries` returns exactly the two seeded entries in
seed order. -/
theorem queryLibraries_seeded :
    (queryLibraries initState).1 = [⟨"downtown"⟩, ⟨"riverside"⟩] := rfl

/-- Claim C8: `Query.numberSix` returns 6 and `Query.numberSeven` returns 7
in every state, leaving the state unchanged, so the values are independent of
any prior requests or mutations. -/
theorem numbers_constant (s : ServerState) :
    (numberSix s).1 = 6 ∧ (numberSeven s).1 = 7 ∧
    (numberSix s).2 = s ∧ (numberSeven s).2 = s := by
  exact ⟨rfl, rfl, rfl, rfl⟩

/-- Claim C9: every resolver in the resolver table leaves the four
module-level collections unchanged: its post-state equals its pre-state. -/
theorem resolvers_preserve_state (s : ServerState) (id : String)
    (l : Library) (b : BookNew) (p : FieldVal) (args : AddBookArgs) :
    (queryBooks s).2 = s ∧ (queryAuthors s).2 = s ∧
    (queryAuthor s id).2 = s ∧ (numberSix s).2 = s ∧
    (numberSeven s).2 = s ∧ (queryLibraries s).2 = s ∧
    (libraryBooksNew s l).2 = s ∧ (bookNewAuthor s b).2 = s ∧
    (addBook s p args).2 = s := by
  exact ⟨rfl, rfl, rfl, rfl, rfl, rfl, rfl, rfl, rfl⟩

/-- Claim C10: each seeded `booksNew` entry has the branch of exactly one
seeded library, so `Library.booksNew` over the seeded libraries partitions
the `booksNew` collection: every entry appears under exactly one library. -/
theorem booksNew_partition_by_branch :
    (∀ b ∈ initState.booksNew,
        b.branch = "downtown" ∨ b.branch = "riverside") ∧
    (∀ b ∈ initState.booksNew, ∃ l ∈ (queryLibraries initState).1,
        b ∈ (libraryBooksNew initState l).1 ∧
        ∀ l2 ∈ (queryLibraries initState).1,
          b ∈ (libraryBooksNew initState l2).1 → l2 = l) := by
  decide
